import Mathlib

/-
Verification development for the Dudley-method spline durability calculator
(`SplineDurabilityDudleyMethod.py`).

The calculator is a pure pipeline of closed-form stress formulas and bracket
table lookups.  We embed it shallowly: Python floats become rationals (every
constant in the source is a decimal literal, represented exactly), the
external collaborators (numpy's pi and tan, the pressure and length unit
converters) become fields of an explicit environment record, Python `None`
fall-throughs become `Option`, and raised exceptions become `Except` errors.
Arithmetic performed on a `None` value (a `TypeError` in Python) is modelled
by the `typeError` error at the point where the value is consumed, matching
the evaluation order of the source.
-/

namespace Dudley

/-- Environment of external collaborators: numpy's `pi` and `tan`, and the
unit-conversion pair `PressureConverter.psiToPa` / `LengthConverter.mToInch`
from `BaseCalculations.UnitConverter`, which the spec treats as black boxes. -/
structure UnitEnv where
  pi : ℚ
  tan : ℚ → ℚ
  psiToPa : ℚ → ℚ
  mToInch : ℚ → ℚ

/-- Errors the calculator can raise: the two declared exception classes,
the `TypeError` Python raises when arithmetic hits a `None` lookup result,
and the `IndexError` from an out-of-range application-factor index. -/
inductive DudleyError where
  | unrecognisedHardnessType
  | unrecognisedToothEnd
  | typeError
  | indexError
deriving DecidableEq, Repr

/-- Input record: the constructor arguments of `DudleyMethodSpline`. -/
structure CalcInput where
  t : ℚ
  dRe : ℚ
  supplyShockType : ℕ
  loadShockType : ℕ
  n : ℚ
  nCyc : ℚ
  nTotal : ℚ
  hardness : ℚ
  d : ℚ
  z : ℚ
  fE : ℚ
  tC : ℚ
  relativeMisalignment : ℚ
  h : ℚ
  phi : ℚ
  tW : ℚ
  f : ℚ
  dOi : ℚ
  dRi : ℚ
  dH : ℚ
  hType : String
  reversible : Bool
  toothEnd : String
  flexible : Bool
  y : ℚ

/-- Result record: the derived attributes `calculate` stores on the object.
`lifeWear` is only assigned on the flexible branch, hence an `Option`. -/
structure CalcResult where
  shaftStress : ℚ
  appFactor : ℚ
  splineLF : ℚ
  allowShaftStress : ℚ
  maxShaftStress : ℚ
  shaftSafetyFactor : ℚ
  teethLoadkM : ℚ
  teethShearStress : ℚ
  maxTeethShearStress : ℚ
  teethSafetyFactor : ℚ
  compStress : ℚ
  allowCompStress : ℚ
  lifeWear : Option ℚ
  factoredCompStress : ℚ
  compSafetyFactor : ℚ
  burstRad : ℚ
  burstCentrifugal : ℚ
  burstTens : ℚ
  burstTotal : ℚ
  allowBurstStress : ℚ
  burstSafetyFactor : ℚ
deriving DecidableEq, Repr

/-- Shaft stress for a solid shaft: `16 t / (pi dRE^3)`. -/
def solidShaftStress (env : UnitEnv) (t dRE : ℚ) : ℚ :=
  16 * t / (env.pi * dRE ^ 3)

/-- Shaft stress for a hollow shaft: `16 t dRE / (pi (dRE^4 - dH^4))`. -/
def hollowShaftStress (env : UnitEnv) (t dRE dH : ℚ) : ℚ :=
  16 * t * dRE / (env.pi * (dRE ^ 4 - dH ^ 4))

/-- Literal application-factor table `kTable` from
`getSplineApplicationFactor`. -/
def kTable : List (List ℚ) :=
  [[1, 1.2, 1.5, 1.8], [1.2, 1.3, 1.8, 2.1], [2, 2.2, 2.4, 2.8]]

/-- Application factor `K_a`: a plain double index into `kTable`; an
out-of-range index raises (Python `IndexError`, no bounds check). -/
def getSplineApplicationFactor (supplyShockType loadShockType : ℕ) :
    Except DudleyError ℚ :=
  match kTable.get? supplyShockType with
  | none => .error .indexError
  | some row =>
    match row.get? loadShockType with
    | none => .error .indexError
    | some v => .ok v

/-- Life factor `L_f`: cascade of strict `<` tests against
1000, 10000, 100000, 1000000, with a reversible/unidirectional value pair
in each bucket, exactly as in the source. -/
def getLifeFactor (nCyc : ℚ) (reversible : Bool) : ℚ :=
  if nCyc < 1000 then (if reversible then 1.8 else 1.8)
  else if nCyc < 10000 then (if reversible then 1.0 else 1.0)
  else if nCyc < 100000 then (if reversible then 0.4 else 0.5)
  else if nCyc < 1000000 then (if reversible then 0.3 else 0.4)
  else (if reversible then 0.2 else 0.3)

/-- Maximum (application- and life-factored) stress: `sS kA / lF`. -/
def maximumShaftStress (sS kA lF : ℚ) : ℚ :=
  sS * kA / lF

/-- Allowable shear stress by hardness.  The source checks only upper
bounds; on the branches where every test fails the Python function falls
off the end and returns `None`, modelled as `.ok none`.  An unrecognised
hardness type raises. -/
def getAllowableShearStressByHardness (env : UnitEnv) (hardness : ℚ)
    (hType : String) : Except DudleyError (Option ℚ) :=
  if hType = "Brinell" then
    if hardness < 200 then .ok (some (env.psiToPa 20000))
    else if hardness < 260 then .ok (some (env.psiToPa 30000))
    else if hardness < 351 then .ok (some (env.psiToPa 40000))
    else .ok none
  else if hType = "Rockwell C" then
    if hardness < 38 then .ok (some (env.psiToPa 40000))
    else if hardness < 46 then .ok (some (env.psiToPa 45000))
    else if hardness < 53 then .ok (some (env.psiToPa 40000))
    else if hardness < 63 then .ok (some (env.psiToPa 50000))
    else .ok none
  else .error .unrecognisedHardnessType

/-- Safety factor: allowable over actual. -/
def getShaftSafetyFactor (maxShaftStress allowableShaftStress : ℚ) : ℚ :=
  allowableShaftStress / maxShaftStress

/-- Teeth shear stress: `4 t kM / (d z fE tC)`. -/
def getTeethShearStress (t kM d z fE tC : ℚ) : ℚ :=
  (4 * t * kM) / (d * z * fE * tC)

/-- Load-distribution table `lookUp` from
`getLoadDistributionFactorSpline`. -/
def lookUpKm : List (List ℚ) :=
  [[1, 1, 1, 1.5], [1, 1, 1.5, 2], [1, 1.5, 2, 2.5], [1.5, 2, 2.5, 3]]

/-- Loop body of the bracket search in `getLoadDistributionFactorSpline`:
walk the breakpoint list, stopping (Python `break`) at the first breakpoint
strictly above the value, counting the breakpoints passed. -/
def bracketCount (v : ℚ) : List ℚ → ℕ
  | [] => 0
  | b :: bs => if v < b then 0 else bracketCount v bs + 1

/-- Clamp of the bracket counter: `m = 3 if m > 3 else m`. -/
def clamp3 (m : ℕ) : ℕ :=
  if m > 3 then 3 else m

/-- Load-distribution factor `K_m`: bracket the misalignment and the face
width against their breakpoint lists, clamp each count to 3, and read the
4-by-4 table. -/
def getLoadDistributionFactorSpline (relativeMisalignment fE : ℚ) : ℚ :=
  (lookUpKm.getD
      (clamp3 (bracketCount relativeMisalignment
        [0.001, 0.002, 0.004, 0.008])) []).getD
    (clamp3 (bracketCount fE [12.7e-3, 25.4e-3, 50.8e-3, 101.0e-3])) 0

/-- Compressive stress on the teeth: `2 t kM / (d z fE h)`. -/
def getCompressiveStress (t kM d z fE h : ℚ) : ℚ :=
  (2 * t * kM) / (d * z * fE * h)

/-- Allowable compressive stress by hardness and tooth end.  The tooth-end
check comes first and raises for anything outside Straight/Crowned; the
hardness brackets again test upper bounds only, falling through to `None`
past the last bracket. -/
def getAllowableCompressiveStressForSplines (env : UnitEnv) (hardness : ℚ)
    (hType toothEnd : String) : Except DudleyError (Option ℚ) :=
  if toothEnd ≠ "Straight" ∧ toothEnd ≠ "Crowned" then
    .error .unrecognisedToothEnd
  else if hType = "Brinell" then
    if hardness < 200 then
      .ok (some (if toothEnd = "Straight" then env.psiToPa 1500
                 else env.psiToPa 6000))
    else if hardness < 260 then
      .ok (some (if toothEnd = "Straight" then env.psiToPa 2000
                 else env.psiToPa 8000))
    else if hardness < 351 then
      .ok (some (if toothEnd = "Straight" then env.psiToPa 3000
                 else env.psiToPa 12000))
    else .ok none
  else if hType = "Rockwell C" then
    if hardness < 38 then
      .ok (some (if toothEnd = "Straight" then env.psiToPa 3000
                 else env.psiToPa 12000))
    else if hardness < 53 then
      .ok (some (if toothEnd = "Straight" then env.psiToPa 4000
                 else env.psiToPa 16000))
    else if hardness < 63 then
      .ok (some (if toothEnd = "Straight" then env.psiToPa 5000
                 else env.psiToPa 20000))
    else .ok none
  else .error .unrecognisedHardnessType

/-- Spline wear life factor `L_w`: strict `<` cascade over
`1e4 … 1e10`; at or past `1e10` the Python function falls off the end and
returns `None`. -/
def getSplineWearLifeFactor (nCyc : ℚ) : Option ℚ :=
  if nCyc < 1e4 then some 4.0
  else if nCyc < 1e5 then some 2.8
  else if nCyc < 1e6 then some 2
  else if nCyc < 1e7 then some 1.4
  else if nCyc < 1e8 then some 1
  else if nCyc < 1e9 then some 0.7
  else if nCyc < 1e10 then some 0.5
  else none

/-- Factored compressive stress: `sC kA / lW` when flexible, else
`sC kA / (9 lW)`. -/
def getAllowableCompressiveStress (sC kA lW : ℚ) (flexible : Bool) : ℚ :=
  if flexible then sC * kA / lW else sC * kA / (9 * lW)

/-- Bursting radial stress `S_1 = t tan(phi) / (pi d tW f)`. -/
def getBurstingRadialStress (env : UnitEnv) (t phi d tW f : ℚ) : ℚ :=
  t * env.tan phi / (env.pi * d * tW * f)

/-- Bursting centrifugal stress `S_2`: the PSI-domain formula
`0.828e-6 n^2 (2 dOi_in^2 + 0.424 dRi_in^2)` with the diameters first
converted to inches, the result then converted to pascals. -/
def getBurstingCentrifugalStress (env : UnitEnv) (n dOi dRi : ℚ) : ℚ :=
  env.psiToPa (0.828 * 1.0e-6 * n ^ 2 *
    (2 * env.mToInch dOi ^ 2 + 0.424 * env.mToInch dRi ^ 2))

/-- Bursting tensile stress `S_3 = 4 t / (d^2 fE y)`. -/
def getBurstingTensileStress (t d fE y : ℚ) : ℚ :=
  (4 * t) / (d ^ 2 * fE * y)

/-- Total bursting stress `S_t = kA kM (s1 + s3) + s2`. -/
def getTotalBurstingStress (kA kM s1 s2 s3 : ℚ) : ℚ :=
  (kA * kM * (s1 + s3)) + s2

/-- Allowable bursting stress by hardness; same upper-bound-only bracket
shape as the shear table but with its own breakpoints and PSI values. -/
def getAllowableBurstingStressByHardness (env : UnitEnv) (hardness : ℚ)
    (hType : String) : Except DudleyError (Option ℚ) :=
  if hType = "Brinell" then
    if hardness < 200 then .ok (some (env.psiToPa 22000))
    else if hardness < 260 then .ok (some (env.psiToPa 32000))
    else if hardness < 351 then .ok (some (env.psiToPa 45000))
    else .ok none
  else if hType = "Rockwell C" then
    if hardness < 46 then .ok (some (env.psiToPa 45000))
    else if hardness < 53 then .ok (some (env.psiToPa 50000))
    else if hardness < 63 then .ok (some (env.psiToPa 55000))
    else .ok none
  else .error .unrecognisedHardnessType

/-- Bursting safety factor: `sTTotMax / (sTTot / lF)`. -/
def getBurstingSafetyFactor (sTTot sTTotMax lF : ℚ) : ℚ :=
  sTTotMax / (sTTot / lF)

/-- Pure part of `calculate`: given the values the fallible lookups
resolved to (`lw = some w` on the flexible branch, `none` on the rigid
branch), assemble every derived attribute exactly as `calculate` does. -/
def calcPure (env : UnitEnv) (inp : CalcInput)
    (kA allowShaft allowComp allowBurst : ℚ) (lw : Option ℚ) : CalcResult :=
  let shaftStress :=
    if inp.dH = 0 then solidShaftStress env inp.t inp.dRe
    else hollowShaftStress env inp.t inp.dRe inp.dH
  let splineLF := getLifeFactor inp.nCyc inp.reversible
  let maxShaftStress := maximumShaftStress shaftStress kA splineLF
  let shaftSafetyFactor := getShaftSafetyFactor maxShaftStress allowShaft
  let teethLoadkM :=
    getLoadDistributionFactorSpline inp.relativeMisalignment inp.fE
  let teethShearStress :=
    getTeethShearStress inp.t teethLoadkM inp.d inp.z inp.fE inp.tC
  let maxTeethShearStress := maximumShaftStress teethShearStress kA splineLF
  let teethSafetyFactor := getShaftSafetyFactor maxTeethShearStress allowShaft
  let compStress :=
    getCompressiveStress inp.t teethLoadkM inp.d inp.z inp.fE inp.h
  let factoredCompStress :=
    match lw with
    | some w => getAllowableCompressiveStress compStress kA w true
    | none => getAllowableCompressiveStress compStress kA splineLF false
  let compSafetyFactor := allowComp / factoredCompStress
  let burstRad :=
    getBurstingRadialStress env inp.t inp.phi inp.d inp.tW inp.f
  let burstCentrifugal :=
    getBurstingCentrifugalStress env inp.n inp.dOi inp.dRi
  let burstTens := getBurstingTensileStress inp.t inp.d inp.fE inp.y
  let burstTotal :=
    getTotalBurstingStress kA teethLoadkM burstRad burstCentrifugal burstTens
  let burstSafetyFactor :=
    getBurstingSafetyFactor burstTotal allowBurst splineLF
  { shaftStress := shaftStress
    appFactor := kA
    splineLF := splineLF
    allowShaftStress := allowShaft
    maxShaftStress := maxShaftStress
    shaftSafetyFactor := shaftSafetyFactor
    teethLoadkM := teethLoadkM
    teethShearStress := teethShearStress
    maxTeethShearStress := maxTeethShearStress
    teethSafetyFactor := teethSafetyFactor
    compStress := compStress
    allowCompStress := allowComp
    lifeWear := lw
    factoredCompStress := factoredCompStress
    compSafetyFactor := compSafetyFactor
    burstRad := burstRad
    burstCentrifugal := burstCentrifugal
    burstTens := burstTens
    burstTotal := burstTotal
    allowBurstStress := allowBurst
    burstSafetyFactor := burstSafetyFactor }

/-- The `calculate` pipeline.  Fallible steps are sequenced in the order
the source hits them: the application-factor index, the shear-stress
lookup (whose `None` is consumed by the shaft safety factor), the
compressive lookup, the wear-life lookup on the flexible branch (whose
`None` is consumed by the factored-stress arithmetic), the consumption of
the compressive lookup's value by the compressive safety factor, and the
bursting lookup (whose `None` is consumed by the bursting safety factor).
An error anywhere yields no result record, as the exception propagates out
of `calculate` (and out of the constructor) in Python. -/
def calculate (env : UnitEnv) (inp : CalcInput) :
    Except DudleyError CalcResult :=
  match getSplineApplicationFactor inp.supplyShockType inp.loadShockType with
  | .error e => .error e
  | .ok kA =>
    match getAllowableShearStressByHardness env inp.hardness inp.hType with
    | .error e => .error e
    | .ok none => .error .typeError
    | .ok (some allowShaft) =>
      match getAllowableCompressiveStressForSplines env inp.hardness
          inp.hType inp.toothEnd with
      | .error e => .error e
      | .ok allowCompO =>
        match (if inp.flexible then
                 match getSplineWearLifeFactor inp.nTotal with
                 | none => Except.error DudleyError.typeError
                 | some w => Except.ok (some w)
               else (Except.ok none : Except DudleyError (Option ℚ))) with
        | .error e => .error e
        | .ok lw =>
          match allowCompO with
          | none => .error .typeError
          | some allowComp =>
            match getAllowableBurstingStressByHardness env inp.hardness
                inp.hType with
            | .error e => .error e
            | .ok none => .error .typeError
            | .ok (some allowBurst) =>
              .ok (calcPure env inp kA allowShaft allowComp allowBurst lw)

end Dudley

namespace Dudley

/-- Decompose a successful pipeline run: every fallible lookup resolved,
the wear-life lookup resolved exactly on the flexible branch, and the
result is `calcPure` of the resolved values. -/
lemma calculate_ok {env : UnitEnv} {inp : CalcInput} {r : CalcResult}
    (h : calculate env inp = .ok r) :
    ∃ kA allowShaft allowComp allowBurst lw,
      getSplineApplicationFactor inp.supplyShockType inp.loadShockType
        = .ok kA ∧
      getAllowableShearStressByHardness env inp.hardness inp.hType
        = .ok (some allowShaft) ∧
      getAllowableCompressiveStressForSplines env inp.hardness inp.hType
        inp.toothEnd = .ok (some allowComp) ∧
      getAllowableBurstingStressByHardness env inp.hardness inp.hType
        = .ok (some allowBurst) ∧
      (inp.flexible = true →
        ∃ w, getSplineWearLifeFactor inp.nTotal = some w ∧ lw = some w) ∧
      (inp.flexible = false → lw = none) ∧
      r = calcPure env inp kA allowShaft allowComp allowBurst lw := by
  unfold calculate at h
  split at h
  · exact absurd h (by simp)
  · split at h
    · exact absurd h (by simp)
    · exact absurd h (by simp)
    · split at h
      · exact absurd h (by simp)
      · split at h
        · exact absurd h (by simp)
        · split at h
          · exact absurd h (by simp)
          · split at h
            · exact absurd h (by simp)
            · exact absurd h (by simp)
            · injection h with h
              subst h
              rename_i xa kA hKA xb allowShaft hShear xc xd lw hLw xe
                allowComp hComp xf allowBurst hBurst
              refine ⟨kA, allowShaft, allowComp, allowBurst, lw, hKA, hShear,
                hComp, hBurst, ?_, ?_, rfl⟩
              · intro hf
                rw [hf] at hLw
                simp only [if_true] at hLw
                cases hw : getSplineWearLifeFactor inp.nTotal with
                | none => rw [hw] at hLw; exact absurd hLw (by simp)
                | some w =>
                  rw [hw] at hLw
                  injection hLw with hLw
                  exact ⟨w, rfl, hLw.symm⟩
              · intro hf
                rw [hf] at hLw
                simp only [Bool.false_eq_true, if_false] at hLw
                injection hLw with hLw
                exact hLw.symm

/-- Concrete environment used to exercise the theorems: any instantiation
of the external collaborators will do. -/
def env0 : UnitEnv where
  pi := 3
  tan := id
  psiToPa := fun x => 2 * x
  mToInch := fun x => 40 * x

/-- Concrete well-formed input (solid shaft, flexible spline, Brinell 180,
straight tooth ends). -/
def inp0 : CalcInput where
  t := 1
  dRe := 1
  supplyShockType := 0
  loadShockType := 0
  n := 0
  nCyc := 1
  nTotal := 1
  hardness := 180
  d := 1
  z := 1
  fE := 1
  tC := 1
  relativeMisalignment := 0
  h := 1
  phi := 0
  tW := 1
  f := 1
  dOi := 0
  dRi := 0
  dH := 0
  hType := "Brinell"
  reversible := false
  toothEnd := "Straight"
  flexible := true
  y := 1

/-- The result record `calculate env0 inp0` produces. -/
def res0 : CalcResult where
  shaftStress := 16/3
  appFactor := 1
  splineLF := 9/5
  allowShaftStress := 40000
  maxShaftStress := 80/27
  shaftSafetyFactor := 13500
  teethLoadkM := 3/2
  teethShearStress := 6
  maxTeethShearStress := 10/3
  teethSafetyFactor := 12000
  compStress := 3
  allowCompStress := 3000
  lifeWear := some 4
  factoredCompStress := 3/4
  compSafetyFactor := 4000
  burstRad := 0
  burstCentrifugal := 0
  burstTens := 4
  burstTotal := 6
  allowBurstStress := 44000
  burstSafetyFactor := 13200

/-- Rigid-spline variant of `inp0`. -/
def inp1 : CalcInput := { inp0 with flexible := false }

/-- The result record `calculate env0 inp1` produces: `lifeWear` is never
assigned, and the factored compressive stress uses the `9 L_f` form. -/
def res1 : CalcResult :=
  { res0 with lifeWear := none, factoredCompStress := 5/27,
              compSafetyFactor := 16200 }

/-- Evaluation of the pipeline on the flexible concrete input. -/
lemma calculate_inp0 : calculate env0 inp0 = .ok res0 := by
  norm_num [calculate, calcPure, env0, inp0, res0, solidShaftStress,
    getSplineApplicationFactor, kTable, getLifeFactor,
    getAllowableShearStressByHardness, maximumShaftStress,
    getShaftSafetyFactor, getLoadDistributionFactorSpline, clamp3, bracketCount,
    lookUpKm, getTeethShearStress, getCompressiveStress,
    getAllowableCompressiveStressForSplines, getSplineWearLifeFactor,
    getAllowableCompressiveStress, getBurstingRadialStress,
    getBurstingCentrifugalStress, getBurstingTensileStress,
    getTotalBurstingStress, getAllowableBurstingStressByHardness,
    getBurstingSafetyFactor]

/-- Evaluation of the pipeline on the rigid concrete input. -/
lemma calculate_inp1 : calculate env0 inp1 = .ok res1 := by
  norm_num [calculate, calcPure, env0, inp0, inp1, res0, res1,
    solidShaftStress, getSplineApplicationFactor, kTable, getLifeFactor,
    getAllowableShearStressByHardness, maximumShaftStress,
    getShaftSafetyFactor, getLoadDistributionFactorSpline, clamp3, bracketCount,
    lookUpKm, getTeethShearStress, getCompressiveStress,
    getAllowableCompressiveStressForSplines, getSplineWearLifeFactor,
    getAllowableCompressiveStress, getBurstingRadialStress,
    getBurstingCentrifugalStress, getBurstingTensileStress,
    getTotalBurstingStress, getAllowableBurstingStressByHardness,
    getBurstingSafetyFactor]

end Dudley

namespace Dudley

/-- Hollow-shaft variant of `inp0`. -/
def inp2 : CalcInput := { inp0 with dH := 1/2 }

/-- The result record `calculate env0 inp2` produces: the shaft stress now
comes from the hollow formula. -/
def res2 : CalcResult :=
  { res0 with shaftStress := 256/45, maxShaftStress := 256/81,
              shaftSafetyFactor := 50625/4 }

/-- Evaluation of the pipeline on the hollow concrete input. -/
lemma calculate_inp2 : calculate env0 inp2 = .ok res2 := by
  norm_num [calculate, calcPure, env0, inp0, inp2, res0, res2,
    solidShaftStress, hollowShaftStress,
    getSplineApplicationFactor, kTable, getLifeFactor,
    getAllowableShearStressByHardness, maximumShaftStress,
    getShaftSafetyFactor, getLoadDistributionFactorSpline, clamp3,
    bracketCount, lookUpKm, getTeethShearStress, getCompressiveStress,
    getAllowableCompressiveStressForSplines, getSplineWearLifeFactor,
    getAllowableCompressiveStress, getBurstingRadialStress,
    getBurstingCentrifugalStress, getBurstingTensileStress,
    getTotalBurstingStress, getAllowableBurstingStressByHardness,
    getBurstingSafetyFactor]

/-- C1: on every successful run the stored shaft stress is the solid-shaft
formula exactly when the bore diameter is exactly zero, and the hollow-shaft
formula whenever it is not. -/
theorem shaft_stress_dispatch (env : UnitEnv) (inp : CalcInput)
    (r : CalcResult) (h : calculate env inp = .ok r) :
    (inp.dH = 0 → r.shaftStress = solidShaftStress env inp.t inp.dRe) ∧
    (inp.dH ≠ 0 →
      r.shaftStress = hollowShaftStress env inp.t inp.dRe inp.dH) := by
  obtain ⟨kA, aS, aC, aB, lw, _, _, _, _, _, _, hr⟩ := calculate_ok h
  subst hr
  constructor
  · intro h0; simp [calcPure, h0]
  · intro h0; simp [calcPure, h0]

/-- C1 witness: the solid path on `inp0` (bore exactly zero) and the hollow
path on `inp2` (bore 1/2). -/
theorem shaft_stress_dispatch_witness :
    res0.shaftStress = solidShaftStress env0 inp0.t inp0.dRe ∧
    res2.shaftStress = hollowShaftStress env0 inp2.t inp2.dRe inp2.dH :=
  ⟨(shaft_stress_dispatch env0 inp0 res0 calculate_inp0).1 rfl,
   (shaft_stress_dispatch env0 inp2 res2 calculate_inp2).2
     (by norm_num [inp2, inp0])⟩

/-- Life factor step function written the way the spec words it: breakpoint
buckets holding a (unidirectional, fully-reversed) pair of values. -/
def lifeFactorSpec (nCyc : ℚ) (reversible : Bool) : ℚ :=
  let pair : ℚ × ℚ :=
    if nCyc < 1000 then (1.8, 1.8)
    else if nCyc < 10000 then (1.0, 1.0)
    else if nCyc < 100000 then (0.5, 0.4)
    else if nCyc < 1000000 then (0.4, 0.3)
    else (0.3, 0.2)
  if reversible then pair.2 else pair.1

/-- C3: the life factor is the spec's step function over breakpoints
1000/10000/100000/1000000 with (unidirectional, fully-reversed) pairs and
strict comparisons; 999 lands in the 1.8 bucket, 1000 in the 1.0 bucket. -/
theorem life_factor_step (nCyc : ℚ) (reversible : Bool) :
    getLifeFactor nCyc reversible = lifeFactorSpec nCyc reversible ∧
    getLifeFactor 999 reversible = 1.8 ∧
    getLifeFactor 1000 reversible = 1.0 := by
  refine ⟨?_, ?_, ?_⟩
  · unfold getLifeFactor lifeFactorSpec
    cases reversible <;> split_ifs <;> norm_num
  · unfold getLifeFactor
    cases reversible <;> norm_num
  · unfold getLifeFactor
    cases reversible <;> norm_num

/-- C4: the total bursting stress is `Ka Km (S1 + S3) + S2`, the
centrifugal component entering unscaled, both as a formula and as wired in
the pipeline; at (2, 3, 5, 7, 11) it is 103. -/
theorem total_bursting_centrifugal_unscaled :
    (∀ kA kM s1 s2 s3 : ℚ,
      getTotalBurstingStress kA kM s1 s2 s3 = kA * kM * (s1 + s3) + s2) ∧
    getTotalBurstingStress 2 3 5 7 11 = 103 ∧
    ∀ (env : UnitEnv) (inp : CalcInput) (r : CalcResult),
      calculate env inp = .ok r →
        r.burstTotal =
          r.appFactor * r.teethLoadkM * (r.burstRad + r.burstTens)
            + r.burstCentrifugal := by
  refine ⟨fun kA kM s1 s2 s3 => rfl, by norm_num [getTotalBurstingStress], ?_⟩
  intro env inp r h
  obtain ⟨kA, aS, aC, aB, lw, _, _, _, _, _, _, hr⟩ := calculate_ok h
  subst hr
  simp [calcPure, getTotalBurstingStress]

/-- C4 witness: the pipeline clause evaluated on the concrete run. -/
theorem total_bursting_centrifugal_unscaled_witness :
    res0.burstTotal =
      res0.appFactor * res0.teethLoadkM * (res0.burstRad + res0.burstTens)
        + res0.burstCentrifugal :=
  total_bursting_centrifugal_unscaled.2.2 env0 inp0 res0 calculate_inp0

/-- C10: the pipeline is deterministic: runs on identical inputs in the
same environment produce identical result records, every field included. -/
theorem pipeline_deterministic (env : UnitEnv) (inpA inpB : CalcInput)
    (rA rB : CalcResult) (hinp : inpA = inpB)
    (hA : calculate env inpA = .ok rA) (hB : calculate env inpB = .ok rB) :
    rA = rB := by
  subst hinp
  rw [hA] at hB
  injection hB

/-- C10 witness: two runs on the concrete input agree. -/
theorem pipeline_deterministic_witness : res0 = res0 :=
  pipeline_deterministic env0 inp0 inp0 res0 res0 rfl calculate_inp0
    calculate_inp0

end Dudley

namespace Dudley

/-- C2 counterexample: a hardness below the lowest tabulated bracket
(Brinell 100, below 160) and one in the Rockwell-C shear gap (47, between
the 42-46 and 48-53 rows) do NOT fall through: each returns the bracketed
stress of the first upper bound it satisfies, not an undefined result. -/
theorem hardness_gap_counterexample :
    getAllowableShearStressByHardness env0 100 "Brinell"
        = .ok (some (env0.psiToPa 20000)) ∧
    getAllowableShearStressByHardness env0 100 "Brinell" ≠ .ok none ∧
    getAllowableShearStressByHardness env0 47 "Rockwell C"
        = .ok (some (env0.psiToPa 40000)) ∧
    getAllowableShearStressByHardness env0 47 "Rockwell C" ≠ .ok none := by
  have h1 : ("Rockwell C" : String) ≠ "Brinell" := by decide
  norm_num [getAllowableShearStressByHardness, env0, h1]
  exact ⟨Option.some_ne_none _, Option.some_ne_none _⟩

/-- C2 amended: in all three hardness lookups the fall-through returning no
result happens exactly at or above the top bracket (Brinell 351, Rockwell C
63); below-range and in-gap values land in the first bracket whose strict
upper bound they satisfy, e.g. any Brinell below 200 gets the 160-200
stress and Rockwell C values in 46-53 get the 48-53 shear stress. -/
theorem hardness_gap_amended (env : UnitEnv) (hardness : ℚ)
    (toothEnd : String)
    (hte : toothEnd = "Straight" ∨ toothEnd = "Crowned") :
    (getAllowableShearStressByHardness env hardness "Brinell" = .ok none
      ↔ 351 ≤ hardness) ∧
    (getAllowableShearStressByHardness env hardness "Rockwell C" = .ok none
      ↔ 63 ≤ hardness) ∧
    (getAllowableCompressiveStressForSplines env hardness "Brinell" toothEnd
      = .ok none ↔ 351 ≤ hardness) ∧
    (getAllowableCompressiveStressForSplines env hardness "Rockwell C"
      toothEnd = .ok none ↔ 63 ≤ hardness) ∧
    (getAllowableBurstingStressByHardness env hardness "Brinell" = .ok none
      ↔ 351 ≤ hardness) ∧
    (getAllowableBurstingStressByHardness env hardness "Rockwell C"
      = .ok none ↔ 63 ≤ hardness) ∧
    (hardness < 200 → getAllowableShearStressByHardness env hardness
      "Brinell" = .ok (some (env.psiToPa 20000))) ∧
    (46 ≤ hardness → hardness < 53 → getAllowableShearStressByHardness env
      hardness "Rockwell C" = .ok (some (env.psiToPa 40000))) := by
  have hte' : ¬(toothEnd ≠ "Straight" ∧ toothEnd ≠ "Crowned") := by
    rcases hte with h | h <;> simp [h]
  refine ⟨?_, ?_, ?_, ?_, ?_, ?_, ?_, ?_⟩
  · unfold getAllowableShearStressByHardness
    split_ifs <;> simp_all <;> linarith
  · unfold getAllowableShearStressByHardness
    split_ifs <;> simp_all <;> linarith
  · unfold getAllowableCompressiveStressForSplines
    split_ifs <;> simp_all <;> linarith
  · unfold getAllowableCompressiveStressForSplines
    split_ifs <;> simp_all <;> linarith
  · unfold getAllowableBurstingStressByHardness
    split_ifs <;> simp_all <;> linarith
  · unfold getAllowableBurstingStressByHardness
    split_ifs <;> simp_all <;> linarith
  · intro hlt
    unfold getAllowableShearStressByHardness
    rw [if_pos rfl, if_pos hlt]
  · intro h46 h53
    unfold getAllowableShearStressByHardness
    rw [if_neg (by simp), if_pos rfl, if_neg (by linarith),
      if_neg (by linarith), if_pos h53]

/-- C2 amended witness: Brinell exactly 351 falls through with no result,
while Brinell 100 gets the lowest bracket's stress. -/
theorem hardness_gap_amended_witness :
    getAllowableShearStressByHardness env0 351 "Brinell" = .ok none ∧
    getAllowableShearStressByHardness env0 100 "Brinell"
      = .ok (some (env0.psiToPa 20000)) :=
  ⟨(hardness_gap_amended env0 351 "Straight" (Or.inl rfl)).1.mpr
     (by norm_num),
   (hardness_gap_amended env0 100 "Straight"
     (Or.inl rfl)).2.2.2.2.2.2.1 (by norm_num)⟩

end Dudley

namespace Dudley

/-- Wear-life lookup falls through past the last bracket. -/
lemma wear_none_of_ge {nTotal : ℚ} (h : 1e10 ≤ nTotal) :
    getSplineWearLifeFactor nTotal = none := by
  unfold getSplineWearLifeFactor
  norm_num at h
  rw [if_neg (by linarith), if_neg (by linarith), if_neg (by linarith),
    if_neg (by linarith), if_neg (by linarith), if_neg (by linarith),
    if_neg (by norm_num; linarith)]

/-- C9: at or past 1e10 total revolutions the wear-life lookup returns no
value, and a flexible-spline pipeline run can then produce no result; below
1e10 it returns one of the seven tabulated values. -/
theorem wear_life_fallthrough :
    (∀ nTotal : ℚ, 1e10 ≤ nTotal → getSplineWearLifeFactor nTotal = none) ∧
    (∀ nTotal : ℚ, nTotal < 1e10 → ∃ v,
      getSplineWearLifeFactor nTotal = some v ∧
      (v = 4.0 ∨ v = 2.8 ∨ v = 2.0 ∨ v = 1.4 ∨ v = 1.0 ∨ v = 0.7 ∨
        v = 0.5)) ∧
    ∀ (env : UnitEnv) (inp : CalcInput), inp.flexible = true →
      1e10 ≤ inp.nTotal → ∀ r, calculate env inp ≠ .ok r := by
  refine ⟨fun nTotal h => wear_none_of_ge h, ?_, ?_⟩
  · intro nTotal h
    unfold getSplineWearLifeFactor
    split_ifs
    · exact ⟨4.0, rfl, by norm_num⟩
    · exact ⟨2.8, rfl, by norm_num⟩
    · exact ⟨2, rfl, by norm_num⟩
    · exact ⟨1.4, rfl, by norm_num⟩
    · exact ⟨1, rfl, by norm_num⟩
    · exact ⟨0.7, rfl, by norm_num⟩
    · exact ⟨0.5, rfl, by norm_num⟩
  · intro env inp hflex hge r hok
    obtain ⟨kA, aS, aC, aB, lw, _, _, _, _, hLw, _, _⟩ := calculate_ok hok
    obtain ⟨w, hw, _⟩ := hLw hflex
    rw [wear_none_of_ge hge] at hw
    exact Option.noConfusion hw

/-- C9 witness: at exactly 1e10 revolutions the lookup yields nothing and
the flexible pipeline yields no result record. -/
theorem wear_life_fallthrough_witness :
    getSplineWearLifeFactor 1e10 = none ∧
    calculate env0 { inp0 with nTotal := 1e10 } ≠ .ok res0 :=
  ⟨wear_life_fallthrough.1 1e10 le_rfl,
   wear_life_fallthrough.2.2 env0 { inp0 with nTotal := 1e10 } rfl
     (by norm_num [inp0]) res0⟩

/-- C7: the shear and bursting lookups raise the unrecognised-hardness
error exactly when the hardness type is neither Brinell nor Rockwell C, the
compressive lookup raises the unrecognised-tooth-end error exactly when the
profile is neither Straight nor Crowned, and under either bad enum the
pipeline yields no result record. -/
theorem unrecognised_enum_errors :
    (∀ (env : UnitEnv) (hardness : ℚ) (hType : String),
      getAllowableShearStressByHardness env hardness hType
          = .error .unrecognisedHardnessType ↔
        (hType ≠ "Brinell" ∧ hType ≠ "Rockwell C")) ∧
    (∀ (env : UnitEnv) (hardness : ℚ) (hType : String),
      getAllowableBurstingStressByHardness env hardness hType
          = .error .unrecognisedHardnessType ↔
        (hType ≠ "Brinell" ∧ hType ≠ "Rockwell C")) ∧
    (∀ (env : UnitEnv) (hardness : ℚ) (hType toothEnd : String),
      getAllowableCompressiveStressForSplines env hardness hType toothEnd
          = .error .unrecognisedToothEnd ↔
        (toothEnd ≠ "Straight" ∧ toothEnd ≠ "Crowned")) ∧
    (∀ (env : UnitEnv) (inp : CalcInput),
      inp.hType ≠ "Brinell" → inp.hType ≠ "Rockwell C" →
        ∀ r, calculate env inp ≠ .ok r) ∧
    (∀ (env : UnitEnv) (inp : CalcInput),
      inp.toothEnd ≠ "Straight" → inp.toothEnd ≠ "Crowned" →
        ∀ r, calculate env inp ≠ .ok r) := by
  refine ⟨?_, ?_, ?_, ?_, ?_⟩
  · intro env hardness hType
    unfold getAllowableShearStressByHardness
    split_ifs <;> simp_all
  · intro env hardness hType
    unfold getAllowableBurstingStressByHardness
    split_ifs <;> simp_all
  · intro env hardness hType toothEnd
    unfold getAllowableCompressiveStressForSplines
    split_ifs <;> simp_all
  · intro env inp hB hR r hok
    obtain ⟨kA, aS, aC, aB, lw, _, hShear, _, _, _, _, _⟩ :=
      calculate_ok hok
    unfold getAllowableShearStressByHardness at hShear
    rw [if_neg hB, if_neg hR] at hShear
    exact Except.noConfusion hShear
  · intro env inp hS hC r hok
    obtain ⟨kA, aS, aC, aB, lw, _, _, hComp, _, _, _, _⟩ :=
      calculate_ok hok
    unfold getAllowableCompressiveStressForSplines at hComp
    rw [if_pos ⟨hS, hC⟩] at hComp
    exact Except.noConfusion hComp

/-- C7 witness: a Vickers hardness type and a Round tooth end each trigger
their error, and each aborts the concrete pipeline run. -/
theorem unrecognised_enum_errors_witness :
    getAllowableShearStressByHardness env0 180 "Vickers"
        = .error .unrecognisedHardnessType ∧
    getAllowableCompressiveStressForSplines env0 180 "Brinell" "Round"
        = .error .unrecognisedToothEnd ∧
    calculate env0 { inp0 with hType := "Vickers" } ≠ .ok res0 ∧
    calculate env0 { inp0 with toothEnd := "Round" } ≠ .ok res0 :=
  ⟨(unrecognised_enum_errors.1 env0 180 "Vickers").mpr
     (by constructor <;> decide),
   (unrecognised_enum_errors.2.2.1 env0 180 "Brinell" "Round").mpr
     (by constructor <;> decide),
   unrecognised_enum_errors.2.2.2.1 env0 { inp0 with hType := "Vickers" }
     (by decide) (by decide) res0,
   unrecognised_enum_errors.2.2.2.2 env0 { inp0 with toothEnd := "Round" }
     (by decide) (by decide) res0⟩

end Dudley

namespace Dudley

/-- Wear-life factor written the way the spec words it: the value of the
first breakpoint bucket (strict upper bounds) the revolution count falls
under, from the published (breakpoint, value) rows. -/
def wearLifeFactorSpec (nTotal : ℚ) : Option ℚ :=
  (([(1e4, 4.0), (1e5, 2.8), (1e6, 2.0), (1e7, 1.4), (1e8, 1.0),
     (1e9, 0.7), (1e10, 0.5)] : List (ℚ × ℚ)).find?
    (fun p => decide (nTotal < p.1))).map Prod.snd

/-- The source's wear-life cascade agrees with the spec's bracket rows. -/
lemma wearLifeFactor_eq_spec (nTotal : ℚ) :
    getSplineWearLifeFactor nTotal = wearLifeFactorSpec nTotal := by
  unfold getSplineWearLifeFactor wearLifeFactorSpec
  rcases lt_or_le nTotal (1e4 : ℚ) with h1 | h1
  · simp [List.find?, h1]
  · rcases lt_or_le nTotal (1e5 : ℚ) with h2 | h2
    · simp [List.find?, not_lt.2 h1, h2]
    · rcases lt_or_le nTotal (1e6 : ℚ) with h3 | h3
      · simp [List.find?, not_lt.2 h1, not_lt.2 h2, h3]
        norm_num
      · rcases lt_or_le nTotal (1e7 : ℚ) with h4 | h4
        · simp [List.find?, not_lt.2 h1, not_lt.2 h2, not_lt.2 h3, h4]
        · rcases lt_or_le nTotal (1e8 : ℚ) with h5 | h5
          · simp [List.find?, not_lt.2 h1, not_lt.2 h2, not_lt.2 h3,
              not_lt.2 h4, h5]
            norm_num
          · rcases lt_or_le nTotal (1e9 : ℚ) with h6 | h6
            · simp [List.find?, not_lt.2 h1, not_lt.2 h2, not_lt.2 h3,
                not_lt.2 h4, not_lt.2 h5, h6]
            · rcases lt_or_le nTotal (1e10 : ℚ) with h7 | h7
              · simp [List.find?, not_lt.2 h1, not_lt.2 h2, not_lt.2 h3,
                  not_lt.2 h4, not_lt.2 h5, not_lt.2 h6, h7]
              · simp [List.find?, not_lt.2 h1, not_lt.2 h2, not_lt.2 h3,
                  not_lt.2 h4, not_lt.2 h5, not_lt.2 h6, not_lt.2 h7]

/-- C5: the factored compressive stress on a successful run is
`compStress Ka / Lw` on the flexible branch, with `Lw` the spec's
revolution-bracket step function, and `compStress Ka / (9 Lf)` on the
rigid branch. -/
theorem factored_compressive_stress (env : UnitEnv) (inp : CalcInput)
    (r : CalcResult) (h : calculate env inp = .ok r) :
    (∀ nTotal : ℚ,
      getSplineWearLifeFactor nTotal = wearLifeFactorSpec nTotal) ∧
    (inp.flexible = true → ∃ lw,
      getSplineWearLifeFactor inp.nTotal = some lw ∧
      r.factoredCompStress = r.compStress * r.appFactor / lw) ∧
    (inp.flexible = false →
      r.factoredCompStress =
        r.compStress * r.appFactor / (9 * r.splineLF)) := by
  obtain ⟨kA, aS, aC, aB, lw, _, _, _, _, hFlex, hRigid, hr⟩ :=
    calculate_ok h
  subst hr
  refine ⟨wearLifeFactor_eq_spec, ?_, ?_⟩
  · intro hf
    obtain ⟨w, hw, hlw⟩ := hFlex hf
    subst hlw
    exact ⟨w, hw, by simp [calcPure, getAllowableCompressiveStress,
      getCompressiveStress]⟩
  · intro hf
    have hlw := hRigid hf
    subst hlw
    simp [calcPure, getAllowableCompressiveStress, getCompressiveStress]

/-- C5 witness: the flexible concrete run divides by the wear factor 4, the
rigid concrete run divides by nine times the life factor. -/
theorem factored_compressive_stress_witness :
    (∃ lw, getSplineWearLifeFactor inp0.nTotal = some lw ∧
      res0.factoredCompStress = res0.compStress * res0.appFactor / lw) ∧
    res1.factoredCompStress =
      res1.compStress * res1.appFactor / (9 * res1.splineLF) :=
  ⟨(factored_compressive_stress env0 inp0 res0 calculate_inp0).2.1 rfl,
   (factored_compressive_stress env0 inp1 res1 calculate_inp1).2.2 rfl⟩

/-- Bracket index written the way the spec words it: the number of
breakpoints at or below the value, clamped to index 3. -/
def bracketIndexSpec (v : ℚ) (bps : List ℚ) : ℕ :=
  min 3 (bps.countP (fun b => decide (b ≤ v)))

/-- Clamped bracket counting agrees with the spec's count-and-clamp index
on any ascending four-breakpoint list. -/
lemma clampCount_eq_spec (v a b c d : ℚ) (hab : a ≤ b) (hbc : b ≤ c)
    (hcd : c ≤ d) :
    clamp3 (bracketCount v [a, b, c, d]) = bracketIndexSpec v [a, b, c, d]
    := by
  rcases lt_or_le v a with h1 | h1
  · have h2 : v < b := lt_of_lt_of_le h1 hab
    have h3 : v < c := lt_of_lt_of_le h2 hbc
    have h4 : v < d := lt_of_lt_of_le h3 hcd
    norm_num [bracketCount, clamp3, bracketIndexSpec, List.countP, List.countP.go, h1,
      not_le.2 h1, not_le.2 h2, not_le.2 h3, not_le.2 h4]
  · rcases lt_or_le v b with h2 | h2
    · have h3 : v < c := lt_of_lt_of_le h2 hbc
      have h4 : v < d := lt_of_lt_of_le h3 hcd
      norm_num [bracketCount, clamp3, bracketIndexSpec, List.countP, List.countP.go,
        not_lt.2 h1, h1, h2, not_le.2 h2, not_le.2 h3, not_le.2 h4]
    · rcases lt_or_le v c with h3 | h3
      · have h4 : v < d := lt_of_lt_of_le h3 hcd
        norm_num [bracketCount, clamp3, bracketIndexSpec, List.countP, List.countP.go,
          not_lt.2 h1, h1, not_lt.2 h2, h2, h3, not_le.2 h3, not_le.2 h4]
      · rcases lt_or_le v d with h4 | h4
        · norm_num [bracketCount, clamp3, bracketIndexSpec, List.countP, List.countP.go,
            not_lt.2 h1, h1, not_lt.2 h2, h2, not_lt.2 h3, h3, h4,
            not_le.2 h4]
        · norm_num [bracketCount, clamp3, bracketIndexSpec, List.countP, List.countP.go,
            not_lt.2 h1, h1, not_lt.2 h2, h2, not_lt.2 h3, h3,
            not_lt.2 h4, h4]

/-- C6: the load-distribution lookup is the 4-by-4 table read at the
count-and-clamp bucket indices of the misalignment and face-width
breakpoints, values at or above the top breakpoint clamping to index 3;
in particular (1.0, 1.0) and (0.008, 0.101) both read entry (3,3) = 3.0. -/
theorem load_distribution_bracket :
    (∀ relativeMisalignment fE : ℚ,
      getLoadDistributionFactorSpline relativeMisalignment fE =
        (lookUpKm.getD (bracketIndexSpec relativeMisalignment
            [0.001, 0.002, 0.004, 0.008]) []).getD
          (bracketIndexSpec fE [12.7e-3, 25.4e-3, 50.8e-3, 101.0e-3]) 0) ∧
    getLoadDistributionFactorSpline 1 1
      = getLoadDistributionFactorSpline 0.008 0.101 ∧
    getLoadDistributionFactorSpline 1 1 = 3 := by
  refine ⟨?_, ?_, ?_⟩
  · intro relativeMisalignment fE
    unfold getLoadDistributionFactorSpline
    rw [clampCount_eq_spec _ _ _ _ _ (by norm_num) (by norm_num)
        (by norm_num),
      clampCount_eq_spec _ _ _ _ _ (by norm_num) (by norm_num)
        (by norm_num)]
  · norm_num [getLoadDistributionFactorSpline, bracketCount, clamp3,
      lookUpKm]
  · norm_num [getLoadDistributionFactorSpline, bracketCount, clamp3,
      lookUpKm]

/-- C8: the centrifugal bursting stress is the PSI-domain polynomial in
the shaft speed over the inch-converted diameters, pushed back to pascals
by the converter, both as a formula and as wired in the pipeline. -/
theorem centrifugal_psi_formula :
    (∀ (env : UnitEnv) (n dOi dRi : ℚ),
      getBurstingCentrifugalStress env n dOi dRi =
        env.psiToPa (0.828e-6 * n ^ 2 *
          (2 * env.mToInch dOi ^ 2 + 0.424 * env.mToInch dRi ^ 2))) ∧
    ∀ (env : UnitEnv) (inp : CalcInput) (r : CalcResult),
      calculate env inp = .ok r →
        r.burstCentrifugal =
          env.psiToPa (0.828e-6 * inp.n ^ 2 *
            (2 * env.mToInch inp.dOi ^ 2 +
              0.424 * env.mToInch inp.dRi ^ 2)) := by
  have key : ∀ (env : UnitEnv) (n dOi dRi : ℚ),
      getBurstingCentrifugalStress env n dOi dRi =
        env.psiToPa (0.828e-6 * n ^ 2 *
          (2 * env.mToInch dOi ^ 2 + 0.424 * env.mToInch dRi ^ 2)) := by
    intro env n dOi dRi
    unfold getBurstingCentrifugalStress
    congr 1
    ring_nf
  refine ⟨key, ?_⟩
  intro env inp r h
  obtain ⟨kA, aS, aC, aB, lw, _, _, _, _, _, _, hr⟩ := calculate_ok h
  subst hr
  simpa [calcPure] using key env inp.n inp.dOi inp.dRi

/-- C8 witness: the pipeline clause evaluated on the concrete run. -/
theorem centrifugal_psi_formula_witness :
    res0.burstCentrifugal =
      env0.psiToPa (0.828e-6 * inp0.n ^ 2 *
        (2 * env0.mToInch inp0.dOi ^ 2 +
          0.424 * env0.mToInch inp0.dRi ^ 2)) :=
  centrifugal_psi_formula.2 env0 inp0 res0 calculate_inp0

end Dudley
